import Mathlib

/-!
Athena frontend: the two request panels.

A shallow embedding of `StarknetAbiFetcher.jsx` and `StarknetBackfillFetcher.jsx`.

Each component is a record of its `useState` cells, a function building the `fetch`
request of its click handler, a function giving the state the handler leaves once the
network has answered (the part of the handler after `await fetch(...)`), and a function
giving the conditional blocks of the returned JSX.

The network is an input: a `FetchOutcome` says whether the `fetch` promise rejected or
resolved, and a resolved `Response` carries its status and what each body-reading promise
(`json()`, `text()`, `blob()`) settles to.  A thrown `Error` is represented by its
`message`.
-/

namespace Athena

/-! ## JavaScript values -/

/-- A JavaScript number: `NaN`, an infinity, negative zero, or a finite value (every finite
double is a rational; `real 0` is `+0`). -/
inductive JsNumber where
  | nan
  | inf (negative : Bool)
  | negZero
  | real (value : ℚ)
  deriving DecidableEq

/-- The values `JSON.parse` produces and `JSON.stringify` consumes.  An object is the list of
its own properties in enumeration order. -/
inductive Json where
  | null
  | bool (b : Bool)
  | num (x : JsNumber)
  | str (s : String)
  | arr (items : List Json)
  | obj (props : List (String × Json))

/-- ToBoolean on a number: `NaN`, `+0` and `-0` are falsy. -/
def JsNumber.truthy : JsNumber → Bool
  | .nan => false
  | .inf _ => true
  | .negZero => false
  | .real q => decide (q ≠ 0)

/-- ToBoolean on a JSON value: `null`, `false`, zero, `NaN` and the empty string are falsy,
every array and object is truthy. -/
def Json.truthy : Json → Bool
  | .null => false
  | .bool b => b
  | .num x => x.truthy
  | .str s => decide (s ≠ "")
  | .arr _ => true
  | .obj _ => true

/-- ToBoolean on a state cell that holds `null` or a string. -/
def truthyStr : Option String → Bool
  | none => false
  | some s => decide (s ≠ "")

/-- The text `JSON.stringify(value, null, indent)` (`indent = 0` for the one-argument call),
kept as the pair of its arguments rather than as characters (so the way the serialiser
writes a number, or `null` for `NaN` and the infinities, is not part of this model). -/
structure JsonText where
  value : Json
  indent : Nat

/-- One-argument `JSON.stringify(value)`. -/
def JSON_stringify (value : Json) : JsonText := ⟨value, 0⟩

/-! ## The network -/

/-- The arguments of one `fetch(url, { method, headers, body })` call. -/
structure Request where
  url : String
  method : String
  headers : List (String × String)
  body : JsonText

/-- Binary payload handed out by `response.blob()`. -/
structure Blob where
  bytes : List UInt8
  type : String
  deriving DecidableEq

/-- A resolved `fetch` response: its status and what each of the body readers settles to
(`Except.error msg` is a rejection with an error whose `message` is `msg`). -/
structure Response where
  status : Nat
  json : Except String Json
  text : Except String String
  blob : Except String Blob

/-- `response.ok`: the status is in the range 200 to 299. -/
def Response.ok (r : Response) : Bool :=
  decide (200 ≤ r.status) && decide (r.status ≤ 299)

/-- How the promise returned by `fetch` settles. -/
inductive FetchOutcome where
  | rejected (message : String)
  | resolved (response : Response)

/-- Awaiting the `fetch` promise inside a `try` block. -/
def FetchOutcome.await : FetchOutcome → Except String Response
  | .rejected message => .error message
  | .resolved response => .ok response

/-! ## StarknetAbiFetcher -/

/-- The four `useState` cells of `StarknetAbiFetcher`. -/
structure AbiState where
  classHash : String
  jsonRpcUrl : String
  abi : Json
  error : Option String

/-- Initial values of the cells. -/
def AbiState.initial : AbiState :=
  { classHash := "", jsonRpcUrl := "", abi := Json.null, error := none }

/-- The `fetch` call of `handleFetchAbi`, built from the values the handler closed over. -/
def handleFetchAbi.request (st : AbiState) : Request :=
  { url := "http://localhost:8080/api/abi"
    method := "POST"
    headers := [("Content-Type", "application/json")]
    body := JSON_stringify
      (Json.obj [("classHash", Json.str st.classHash), ("jsonRpcUrl", Json.str st.jsonRpcUrl)]) }

/-- The rest of `handleFetchAbi` once the `fetch` promise has settled, run on the state the
component has at that moment.  The result is how the handler's own promise settles. -/
def handleFetchAbi.settle (o : FetchOutcome) (st : AbiState) : Except String AbiState :=
  try
    let response ← o.await
    if !response.ok then
      throw ("HTTP error " ++ toString response.status)
    let abi ← response.json
    pure { st with abi := abi, error := none }
  catch err =>
    pure { st with error := some err, abi := Json.null }

/-- One click on "Fetch ABI" with no other event in between: the requests sent and the
settlement of the handler. -/
def handleFetchAbi (net : Request → FetchOutcome) (st : AbiState) :
    List Request × Except String AbiState :=
  let req := handleFetchAbi.request st
  ([req], handleFetchAbi.settle (net req) st)

/-- What `StarknetAbiFetcher` returns: the two controlled inputs and the two conditional
blocks.  `abiData` is the text of the `<pre>` under the "ABI Data" heading. -/
structure AbiView where
  classHashInput : String
  jsonRpcUrlInput : String
  abiData : Option JsonText
  errorBanner : Option String

/-- The JSX of `StarknetAbiFetcher`.  For a falsy `abi` the expression `abi && (...)` is `abi`
itself, which puts no "ABI Data" block on the page; likewise `error && (...)`. -/
def StarknetAbiFetcher (st : AbiState) : AbiView :=
  { classHashInput := st.classHash
    jsonRpcUrlInput := st.jsonRpcUrl
    abiData := if st.abi.truthy then some ⟨st.abi, 2⟩ else none
    errorBanner := if truthyStr st.error then st.error else none }

/-- The events that change the cells of `StarknetAbiFetcher`: the two `onChange` handlers and
the settling of the `fetch` promise of an earlier click.  A click itself changes no cell. -/
inductive AbiEvent where
  | setClassHash (v : String)
  | setJsonRpcUrl (v : String)
  | settled (o : FetchOutcome)

/-- The effect of one event on the cells. -/
def AbiState.step (st : AbiState) : AbiEvent → Except String AbiState
  | .setClassHash v => .ok { st with classHash := v }
  | .setJsonRpcUrl v => .ok { st with jsonRpcUrl := v }
  | .settled o => handleFetchAbi.settle o st

/-- The effect of a sequence of events, first event first; an event whose handler throws
stops the run. -/
def AbiState.run : AbiState → List AbiEvent → Except String AbiState
  | st, [] => .ok st
  | st, e :: es =>
    match st.step e with
    | .ok st' => AbiState.run st' es
    | .error err => .error err

/-! ## String to number -/

/-- The mathematical value of a string of decimal digits, most significant digit first. -/
def decimalValue (cs : List Char) : Nat :=
  cs.foldl (fun acc c => 10 * acc + (c.toNat - 48)) 0

/-- The double nearest to a natural number, ties to the even significand: numbers below
`2 ^ 53` are doubles; a longer number keeps its 53 leading binary digits, rounded; a result
of `2 ^ 1024` or more (binary logarithm at least 1024) is `Infinity`. -/
def roundToDouble (n : Nat) : JsNumber :=
  if n < 2 ^ 53 then .real n
  else
    let e := Nat.log2 n - 52
    let q := n / 2 ^ e
    let r := n % 2 ^ e
    let half := 2 ^ (e - 1)
    let q' := if half < r ∨ (r = half ∧ q % 2 = 1) then q + 1 else q
    if 1024 ≤ Nat.log2 (q' * 2 ^ e) then .inf false else .real ((q' * 2 ^ e : Nat) : ℚ)

/-- JavaScript `Number(s)` on a string: the empty string is `+0` and a string of decimal
digits is the double nearest to its value.  On every other string (signs, fractions,
exponents, radix prefixes, white space, `Infinity`, text that is no number) the result is
whatever `other` gives; nothing is assumed about it. -/
def Number (other : String → JsNumber) (s : String) : JsNumber :=
  if s.data = [] then .real 0
  else if s.data.all Char.isDigit then roundToDouble (decimalValue s.data)
  else other s

/-! ## StarknetBackfillFetcher -/

/-- The browsing context as `window.URL.createObjectURL` sees it: the serialised origin, the
identifiers the browser generates (in order, with the count of those already used), and the
blob URL store, which maps every blob URL handed out so far to its blob, newest first. -/
structure Window where
  origin : String
  uuid : Nat → String
  issued : Nat
  blobUrlStore : List (String × Blob)

/-- A browsing context that has handed out no blob URL yet. -/
def Window.fresh (origin : String) : Window :=
  { origin := origin, uuid := fun k => "id-" ++ toString k, issued := 0, blobUrlStore := [] }

/-- The blob a URL stands for in the blob URL store, if any. -/
def Window.resolve (w : Window) (url : String) : Option Blob :=
  List.lookup url w.blobUrlStore

/-- The call `window.URL.createObjectURL(blob)`: it generates a URL of the form
`blob:<origin>/<uuid>`, records in the blob URL store that this URL stands for `blob`, and
returns the URL. -/
def createObjectURL (w : Window) (blob : Blob) : String × Window :=
  let url := "blob:" ++ w.origin ++ "/" ++ w.uuid w.issued
  (url, { w with issued := w.issued + 1, blobUrlStore := (url, blob) :: w.blobUrlStore })

/-- The eight `useState` cells of `StarknetBackfillFetcher`. -/
structure BackfillState where
  fromBlock : String
  toBlock : String
  rpcUrl : String
  outputFile : String
  transactionHashFlag : Bool
  error : Option String
  successMessage : Option String
  downloadUrl : String

/-- Initial values of the cells. -/
def BackfillState.initial : BackfillState :=
  { fromBlock := "", toBlock := "", rpcUrl := "", outputFile := "block_details.csv"
    transactionHashFlag := false, error := none, successMessage := none, downloadUrl := "" }

/-- The `fetch` call of `handleBackfill`, built from the values the handler closed over. -/
def handleBackfill.request (other : String → JsNumber) (st : BackfillState) : Request :=
  { url := "http://localhost:8080/api/backfill"
    method := "POST"
    headers := [("Content-Type", "application/json")]
    body := JSON_stringify
      (Json.obj [("fromBlock", Json.num (Number other st.fromBlock)),
                 ("toBlock", Json.num (Number other st.toBlock)),
                 ("rpcUrl", Json.str st.rpcUrl),
                 ("outputFile", Json.str st.outputFile),
                 ("transactionHashFlag", Json.bool st.transactionHashFlag)]) }

/-- The JavaScript expression `a || b` on strings: `a` unless it is empty. -/
def orElseStr (a b : String) : String :=
  if a ≠ "" then a else b

/-- The rest of `handleBackfill` once the `fetch` promise has settled, run on the state the
component has at that moment and in the browsing context of that moment.  The result is how
the handler's own promise settles, with the cells and the browsing context it leaves. -/
def handleBackfill.resume (w : Window) (o : FetchOutcome) (st : BackfillState) :
    Except String (BackfillState × Window) :=
  try
    let response ← o.await
    if !response.ok then
      let errorData ← response.text
      throw (orElseStr errorData ("HTTP error " ++ toString response.status))
    let blob ← response.blob
    let (url, w') := createObjectURL w blob
    pure ({ st with
            downloadUrl := url
            successMessage := some "Backfill successful! Click below to download results."
            error := none }, w')
  catch err =>
    pure ({ st with error := some err, successMessage := none }, w)

/-- The cells `handleBackfill` leaves once the `fetch` promise has settled: the first
component of `handleBackfill.resume`. -/
def handleBackfill.settle (w : Window) (o : FetchOutcome) (st : BackfillState) :
    Except String BackfillState :=
  (handleBackfill.resume w o st).map Prod.fst

/-- One click on "Fetch Block Data" with no other event in between: the requests sent and
the settlement of the handler. -/
def handleBackfill (other : String → JsNumber) (w : Window) (net : Request → FetchOutcome)
    (st : BackfillState) : List Request × Except String BackfillState :=
  let req := handleBackfill.request other st
  ([req], handleBackfill.settle w (net req) st)

/-- The anchor around the "Download File" button. -/
structure DownloadLink where
  href : String
  download : String
  deriving DecidableEq

/-- The success `Alert`: its description and, when `downloadUrl` is truthy, the link. -/
structure SuccessAlert where
  description : String
  link : Option DownloadLink
  deriving DecidableEq

/-- What `StarknetBackfillFetcher` returns: the five controlled inputs and the two
conditional alerts (`errorAlert` is the description of the destructive alert). -/
structure BackfillView where
  fromBlockInput : String
  toBlockInput : String
  rpcUrlInput : String
  outputFileInput : String
  transactionHashFlagInput : Bool
  successAlert : Option SuccessAlert
  errorAlert : Option String

/-- The JSX of `StarknetBackfillFetcher`. -/
def StarknetBackfillFetcher (st : BackfillState) : BackfillView :=
  { fromBlockInput := st.fromBlock
    toBlockInput := st.toBlock
    rpcUrlInput := st.rpcUrl
    outputFileInput := st.outputFile
    transactionHashFlagInput := st.transactionHashFlag
    successAlert :=
      match st.successMessage with
      | none => none
      | some successMessage =>
        if successMessage ≠ "" then
          some { description := successMessage
                 link := if st.downloadUrl ≠ "" then
                     some { href := st.downloadUrl, download := "backfill_results.zip" }
                   else none }
        else none
    errorAlert := if truthyStr st.error then st.error else none }

/-- The events that change the cells of `StarknetBackfillFetcher`: the five `onChange`
handlers and the settling of the `fetch` promise of an earlier click. -/
inductive BackfillEvent where
  | setFromBlock (v : String)
  | setToBlock (v : String)
  | setRpcUrl (v : String)
  | setOutputFile (v : String)
  | setTransactionHashFlag (v : Bool)
  | settled (w : Window) (o : FetchOutcome)

/-- The effect of one event on the cells. -/
def BackfillState.step (st : BackfillState) : BackfillEvent → Except String BackfillState
  | .setFromBlock v => .ok { st with fromBlock := v }
  | .setToBlock v => .ok { st with toBlock := v }
  | .setRpcUrl v => .ok { st with rpcUrl := v }
  | .setOutputFile v => .ok { st with outputFile := v }
  | .setTransactionHashFlag v => .ok { st with transactionHashFlag := v }
  | .settled w o => handleBackfill.settle w o st

/-- The effect of a sequence of events, first event first; an event whose handler throws
stops the run. -/
def BackfillState.run : BackfillState → List BackfillEvent → Except String BackfillState
  | st, [] => .ok st
  | st, e :: es =>
    match st.step e with
    | .ok st' => BackfillState.run st' es
    | .error err => .error err

/-- The part of the `StarknetAbiFetcher` view that shows an outcome: the "ABI Data" block and
the error banner. -/
def AbiView.outcome (v : AbiView) : Option JsonText × Option String :=
  (v.abiData, v.errorBanner)

/-- The part of the `StarknetBackfillFetcher` view that shows an outcome: the success alert
with its download link and the error alert. -/
def BackfillView.outcome (v : BackfillView) : Option SuccessAlert × Option String :=
  (v.successAlert, v.errorAlert)

/-- A string `s` is a decimal string of the natural number `m`: it is not empty, all its
characters are decimal digits, and read in base ten it is `m`. -/
def IsDecimalOf (s : String) (m : Nat) : Prop :=
  s.data ≠ [] ∧ s.data.all Char.isDigit = true ∧ decimalValue s.data = m

instance (s : String) (m : Nat) : Decidable (IsDecimalOf s m) := by
  unfold IsDecimalOf
  infer_instance


end Athena

namespace Athena

/-! ## Decimal strings -/

theorem digitChar_value (k : Nat) (hk : k < 10) :
    (Nat.digitChar k).toNat - 48 = k ∧ (Nat.digitChar k).isDigit = true := by
  interval_cases k <;> exact ⟨rfl, rfl⟩

theorem decimalValue_snoc (cs : List Char) (c : Char) :
    decimalValue (cs ++ [c]) = 10 * decimalValue cs + (c.toNat - 48) := by
  simp [decimalValue, List.foldl_append]

theorem toDigitsCore_acc (fuel : Nat) :
    ∀ (n : Nat) (ds : List Char),
      Nat.toDigitsCore 10 fuel n ds = Nat.toDigitsCore 10 fuel n [] ++ ds := by
  induction fuel with
  | zero => intro n ds; simp [Nat.toDigitsCore]
  | succ fuel ih =>
    intro n ds
    simp only [Nat.toDigitsCore]
    split
    · simp
    · rw [ih (n / 10) (Nat.digitChar (n % 10) :: ds), ih (n / 10) [Nat.digitChar (n % 10)]]
      simp

theorem toDigitsCore_spec (fuel : Nat) :
    ∀ n : Nat, n < fuel →
      decimalValue (Nat.toDigitsCore 10 fuel n []) = n
        ∧ (Nat.toDigitsCore 10 fuel n []).all Char.isDigit = true
        ∧ Nat.toDigitsCore 10 fuel n [] ≠ [] := by
  induction fuel with
  | zero => intro n hn; omega
  | succ fuel ih =>
    intro n hn
    have hd := digitChar_value (n % 10) (Nat.mod_lt n (by decide))
    simp only [Nat.toDigitsCore]
    split
    · rename_i h0
      refine ⟨?_, ?_, by simp⟩
      · have : decimalValue [Nat.digitChar (n % 10)] = (Nat.digitChar (n % 10)).toNat - 48 := by
          simp [decimalValue]
        rw [this, hd.1]
        omega
      · simp [hd.2]
    · rename_i h0
      have hlt : n / 10 < fuel := by omega
      obtain ⟨h1, h2, _⟩ := ih (n / 10) hlt
      rw [toDigitsCore_acc fuel (n / 10) [Nat.digitChar (n % 10)]]
      refine ⟨?_, ?_, by simp⟩
      · rw [decimalValue_snoc, h1, hd.1]
        omega
      · rw [List.all_append, h2]
        simp [hd.2]

/-- The decimal numeral of `m`, as printed by `toString`, is a non-empty string of digits
whose value is `m`. -/
theorem toString_decimal (m : Nat) :
    (toString m).data ≠ [] ∧ (toString m).data.all Char.isDigit = true
      ∧ decimalValue (toString m).data = m := by
  have h := toDigitsCore_spec (m + 1) m (Nat.lt_succ_self m)
  have hs : (toString m).data = Nat.toDigitsCore 10 (m + 1) m [] := by
    show (Nat.repr m).data = _
    simp [Nat.repr, Nat.toDigits, List.asString]
  rw [hs]
  exact ⟨h.2.2, h.2.1, h.1⟩

theorem roundToDouble_exact (m : Nat) (hm : m ≤ 2 ^ 53) : roundToDouble m = .real m := by
  rcases Nat.lt_or_ge m (2 ^ 53) with h | h
  · unfold roundToDouble
    rw [if_pos h]
  · have : m = 2 ^ 53 := le_antisymm hm h
    subst this
    norm_num [roundToDouble, Nat.log2]

/-- Sample roundings above `2 ^ 53`: a tie goes to the even significand, other values to the
nearer double. -/
theorem roundToDouble_samples :
    roundToDouble 9007199254740993 = .real 9007199254740992
      ∧ roundToDouble 9007199254740995 = .real 9007199254740996
      ∧ roundToDouble 18014398509481986 = .real 18014398509481984
      ∧ roundToDouble 18014398509481987 = .real 18014398509481988 := by
  refine ⟨?_, ?_, ?_, ?_⟩ <;> norm_num [roundToDouble, Nat.log2]

theorem Number_decimal (other : String → JsNumber) (s : String) (hne : s.data ≠ [])
    (hd : s.data.all Char.isDigit = true) :
    Number other s = roundToDouble (decimalValue s.data) := by
  simp only [Number, hne, hd, if_true, if_false]

theorem toString_isDecimalOf (m : Nat) : IsDecimalOf (toString m) m :=
  toString_decimal m

/-! ## The handlers, case by case -/

theorem abi_settle_rejected (message : String) (st : AbiState) :
    handleFetchAbi.settle (.rejected message) st
      = .ok { st with error := some message, abi := Json.null } := rfl

theorem abi_settle_failed (r : Response) (st : AbiState) (hok : r.ok = false) :
    handleFetchAbi.settle (.resolved r) st
      = .ok { st with error := some ("HTTP error " ++ toString r.status), abi := Json.null } := by
  simp [handleFetchAbi.settle, FetchOutcome.await, hok, bind, Except.bind, tryCatch, tryCatchThe,
    MonadExceptOf.tryCatch, Except.tryCatch, throw, throwThe, MonadExceptOf.throw, pure,
    Except.pure]

theorem abi_settle_unparsed (r : Response) (st : AbiState) (message : String)
    (hok : r.ok = true) (hjson : r.json = .error message) :
    handleFetchAbi.settle (.resolved r) st
      = .ok { st with error := some message, abi := Json.null } := by
  simp [handleFetchAbi.settle, FetchOutcome.await, hok, hjson, bind, Except.bind, tryCatch,
    tryCatchThe, MonadExceptOf.tryCatch, Except.tryCatch, throw, throwThe, MonadExceptOf.throw,
    pure, Except.pure, Functor.map, Except.map]

theorem abi_settle_parsed (r : Response) (st : AbiState) (D : Json)
    (hok : r.ok = true) (hjson : r.json = .ok D) :
    handleFetchAbi.settle (.resolved r) st = .ok { st with abi := D, error := none } := by
  simp [handleFetchAbi.settle, FetchOutcome.await, hok, hjson, bind, Except.bind, tryCatch,
    tryCatchThe, MonadExceptOf.tryCatch, Except.tryCatch, throw, throwThe, MonadExceptOf.throw,
    pure, Except.pure, Functor.map, Except.map]

theorem backfill_resume_rejected (w : Window) (message : String) (st : BackfillState) :
    handleBackfill.resume w (.rejected message) st
      = .ok ({ st with error := some message, successMessage := none }, w) := rfl

theorem backfill_resume_failed (w : Window) (r : Response) (st : BackfillState) (b : String)
    (hok : r.ok = false) (htext : r.text = .ok b) :
    handleBackfill.resume w (.resolved r) st
      = .ok ({ st with
                error := some (orElseStr b ("HTTP error " ++ toString r.status))
                successMessage := none }, w) := by
  simp [handleBackfill.resume, FetchOutcome.await, hok, htext, bind, Except.bind, tryCatch,
    tryCatchThe, MonadExceptOf.tryCatch, Except.tryCatch, throw, throwThe, MonadExceptOf.throw,
    pure, Except.pure]

theorem backfill_resume_unread (w : Window) (r : Response) (st : BackfillState)
    (message : String) (hok : r.ok = false) (htext : r.text = .error message) :
    handleBackfill.resume w (.resolved r) st
      = .ok ({ st with error := some message, successMessage := none }, w) := by
  simp [handleBackfill.resume, FetchOutcome.await, hok, htext, bind, Except.bind, tryCatch,
    tryCatchThe, MonadExceptOf.tryCatch, Except.tryCatch, throw, throwThe, MonadExceptOf.throw,
    pure, Except.pure]

theorem backfill_resume_noblob (w : Window) (r : Response) (st : BackfillState)
    (message : String) (hok : r.ok = true) (hblob : r.blob = .error message) :
    handleBackfill.resume w (.resolved r) st
      = .ok ({ st with error := some message, successMessage := none }, w) := by
  simp [handleBackfill.resume, FetchOutcome.await, hok, hblob, bind, Except.bind, tryCatch,
    tryCatchThe, MonadExceptOf.tryCatch, Except.tryCatch, throw, throwThe, MonadExceptOf.throw,
    pure, Except.pure, Functor.map, Except.map]

theorem backfill_resume_blob (w : Window) (r : Response) (st : BackfillState) (blob : Blob)
    (hok : r.ok = true) (hblob : r.blob = .ok blob) :
    handleBackfill.resume w (.resolved r) st
      = .ok ({ st with
                downloadUrl := (createObjectURL w blob).1
                successMessage := some "Backfill successful! Click below to download results."
                error := none }, (createObjectURL w blob).2) := by
  simp [handleBackfill.resume, FetchOutcome.await, hok, hblob, bind, Except.bind, tryCatch,
    tryCatchThe, MonadExceptOf.tryCatch, Except.tryCatch, throw, throwThe, MonadExceptOf.throw,
    pure, Except.pure, Functor.map, Except.map]

theorem backfill_settle_rejected (w : Window) (message : String) (st : BackfillState) :
    handleBackfill.settle w (.rejected message) st
      = .ok { st with error := some message, successMessage := none } := rfl

theorem backfill_settle_failed (w : Window) (r : Response) (st : BackfillState) (b : String)
    (hok : r.ok = false) (htext : r.text = .ok b) :
    handleBackfill.settle w (.resolved r) st
      = .ok { st with
          error := some (orElseStr b ("HTTP error " ++ toString r.status))
          successMessage := none } := by
  rw [handleBackfill.settle, backfill_resume_failed w r st b hok htext]
  rfl

theorem backfill_settle_unread (w : Window) (r : Response) (st : BackfillState)
    (message : String) (hok : r.ok = false) (htext : r.text = .error message) :
    handleBackfill.settle w (.resolved r) st
      = .ok { st with error := some message, successMessage := none } := by
  rw [handleBackfill.settle, backfill_resume_unread w r st message hok htext]
  rfl

theorem backfill_settle_noblob (w : Window) (r : Response) (st : BackfillState)
    (message : String) (hok : r.ok = true) (hblob : r.blob = .error message) :
    handleBackfill.settle w (.resolved r) st
      = .ok { st with error := some message, successMessage := none } := by
  rw [handleBackfill.settle, backfill_resume_noblob w r st message hok hblob]
  rfl

theorem backfill_settle_blob (w : Window) (r : Response) (st : BackfillState) (blob : Blob)
    (hok : r.ok = true) (hblob : r.blob = .ok blob) :
    handleBackfill.settle w (.resolved r) st
      = .ok { st with
          downloadUrl := (createObjectURL w blob).1
          successMessage := some "Backfill successful! Click below to download results."
          error := none } := by
  rw [handleBackfill.settle, backfill_resume_blob w r st blob hok hblob]
  rfl

theorem createObjectURL_ne_empty (w : Window) (blob : Blob) :
    (createObjectURL w blob).1 ≠ "" := by
  intro h
  have := congrArg String.length h
  simp [createObjectURL, String.length_append] at this
  exact absurd this.1.2 (by decide)

theorem createObjectURL_resolve (w : Window) (blob : Blob) :
    (createObjectURL w blob).2.resolve (createObjectURL w blob).1 = some blob := by
  simp [createObjectURL, Window.resolve, List.lookup]

theorem abi_settle_total (o : FetchOutcome) (st : AbiState) :
    ∃ st', handleFetchAbi.settle o st = .ok st'
      ∧ st'.classHash = st.classHash ∧ st'.jsonRpcUrl = st.jsonRpcUrl
      ∧ ((st'.abi = Json.null ∧ ∃ msg, st'.error = some msg)
          ∨ (st'.error = none ∧ ∃ r, o = .resolved r ∧ r.json = .ok st'.abi)) := by
  cases o with
  | rejected message =>
    exact ⟨_, abi_settle_rejected message st, rfl, rfl, Or.inl ⟨rfl, _, rfl⟩⟩
  | resolved r =>
    cases hok : r.ok with
    | false => exact ⟨_, abi_settle_failed r st hok, rfl, rfl, Or.inl ⟨rfl, _, rfl⟩⟩
    | true =>
      cases hjson : r.json with
      | error message =>
        exact ⟨_, abi_settle_unparsed r st message hok hjson, rfl, rfl, Or.inl ⟨rfl, _, rfl⟩⟩
      | ok D =>
        exact ⟨_, abi_settle_parsed r st D hok hjson, rfl, rfl, Or.inr ⟨rfl, r, rfl, hjson⟩⟩

theorem abi_settle_outcome (o : FetchOutcome) (st st0 : AbiState) :
    (handleFetchAbi.settle o st).map (fun s => (StarknetAbiFetcher s).outcome)
      = (handleFetchAbi.settle o st0).map (fun s => (StarknetAbiFetcher s).outcome) := by
  cases o with
  | rejected message => rfl
  | resolved r =>
    cases hok : r.ok with
    | false => rw [abi_settle_failed r st hok, abi_settle_failed r st0 hok]; rfl
    | true =>
      cases hjson : r.json with
      | error message =>
        rw [abi_settle_unparsed r st message hok hjson,
          abi_settle_unparsed r st0 message hok hjson]; rfl
      | ok D =>
        rw [abi_settle_parsed r st D hok hjson, abi_settle_parsed r st0 D hok hjson]; rfl

theorem backfill_settle_total (w : Window) (o : FetchOutcome) (st : BackfillState) :
    ∃ st', handleBackfill.settle w o st = .ok st'
      ∧ ((st'.successMessage = none ∧ ∃ msg, st'.error = some msg)
          ∨ (st'.error = none ∧ st'.successMessage ≠ none)) := by
  cases o with
  | rejected message =>
    exact ⟨_, backfill_settle_rejected w message st, Or.inl ⟨rfl, _, rfl⟩⟩
  | resolved r =>
    cases hok : r.ok with
    | false =>
      cases htext : r.text with
      | error message =>
        exact ⟨_, backfill_settle_unread w r st message hok htext, Or.inl ⟨rfl, _, rfl⟩⟩
      | ok b => exact ⟨_, backfill_settle_failed w r st b hok htext, Or.inl ⟨rfl, _, rfl⟩⟩
    | true =>
      cases hblob : r.blob with
      | error message =>
        exact ⟨_, backfill_settle_noblob w r st message hok hblob, Or.inl ⟨rfl, _, rfl⟩⟩
      | ok blob =>
        exact ⟨_, backfill_settle_blob w r st blob hok hblob, Or.inr ⟨rfl, by simp⟩⟩

theorem backfill_settle_outcome (w : Window) (o : FetchOutcome) (st st0 : BackfillState) :
    (handleBackfill.settle w o st).map (fun s => (StarknetBackfillFetcher s).outcome)
      = (handleBackfill.settle w o st0).map (fun s => (StarknetBackfillFetcher s).outcome) := by
  cases o with
  | rejected message => rfl
  | resolved r =>
    cases hok : r.ok with
    | false =>
      cases htext : r.text with
      | error message =>
        rw [backfill_settle_unread w r st message hok htext,
          backfill_settle_unread w r st0 message hok htext]; rfl
      | ok b =>
        rw [backfill_settle_failed w r st b hok htext,
          backfill_settle_failed w r st0 b hok htext]; rfl
    | true =>
      cases hblob : r.blob with
      | error message =>
        rw [backfill_settle_noblob w r st message hok hblob,
          backfill_settle_noblob w r st0 message hok hblob]; rfl
      | ok blob =>
        rw [backfill_settle_blob w r st blob hok hblob,
          backfill_settle_blob w r st0 blob hok hblob]; rfl

theorem abi_step_exclusive (st : AbiState) (e : AbiEvent)
    (h : st.abi = Json.null ∨ st.error = none) :
    ∃ st', st.step e = .ok st' ∧ (st'.abi = Json.null ∨ st'.error = none) := by
  cases e with
  | setClassHash v => exact ⟨_, rfl, h⟩
  | setJsonRpcUrl v => exact ⟨_, rfl, h⟩
  | settled o =>
    obtain ⟨st', hst', _, _, hcase⟩ := abi_settle_total o st
    refine ⟨st', hst', ?_⟩
    rcases hcase with ⟨habi, _⟩ | ⟨herr, _⟩
    · exact Or.inl habi
    · exact Or.inr herr

theorem abi_run_exclusive (evs : List AbiEvent) :
    ∀ st : AbiState, (st.abi = Json.null ∨ st.error = none) →
      ∃ st', st.run evs = .ok st' ∧ (st'.abi = Json.null ∨ st'.error = none) := by
  induction evs with
  | nil => intro st h; exact ⟨st, rfl, h⟩
  | cons e es ih =>
    intro st h
    obtain ⟨st1, hstep, h1⟩ := abi_step_exclusive st e h
    obtain ⟨st2, hrun, h2⟩ := ih st1 h1
    refine ⟨st2, ?_, h2⟩
    simp only [AbiState.run, hstep]
    exact hrun

theorem backfill_step_exclusive (st : BackfillState) (e : BackfillEvent)
    (h : st.successMessage = none ∨ st.error = none) :
    ∃ st', st.step e = .ok st' ∧ (st'.successMessage = none ∨ st'.error = none) := by
  cases e with
  | setFromBlock v => exact ⟨_, rfl, h⟩
  | setToBlock v => exact ⟨_, rfl, h⟩
  | setRpcUrl v => exact ⟨_, rfl, h⟩
  | setOutputFile v => exact ⟨_, rfl, h⟩
  | setTransactionHashFlag v => exact ⟨_, rfl, h⟩
  | settled w o =>
    obtain ⟨st', hst', hcase⟩ := backfill_settle_total w o st
    refine ⟨st', hst', ?_⟩
    rcases hcase with ⟨hmsg, _⟩ | ⟨herr, _⟩
    · exact Or.inl hmsg
    · exact Or.inr herr

theorem backfill_run_exclusive (evs : List BackfillEvent) :
    ∀ st : BackfillState, (st.successMessage = none ∨ st.error = none) →
      ∃ st', st.run evs = .ok st' ∧ (st'.successMessage = none ∨ st'.error = none) := by
  induction evs with
  | nil => intro st h; exact ⟨st, rfl, h⟩
  | cons e es ih =>
    intro st h
    obtain ⟨st1, hstep, h1⟩ := backfill_step_exclusive st e h
    obtain ⟨st2, hrun, h2⟩ := ih st1 h1
    refine ⟨st2, ?_, h2⟩
    simp only [BackfillState.run, hstep]
    exact hrun

theorem abi_view_exclusive (st : AbiState) (h : st.abi = Json.null ∨ st.error = none) :
    (StarknetAbiFetcher st).abiData = none ∨ (StarknetAbiFetcher st).errorBanner = none := by
  rcases h with h | h
  · left; simp [StarknetAbiFetcher, h, Json.truthy]
  · right; simp [StarknetAbiFetcher, h, truthyStr]

theorem backfill_view_exclusive (st : BackfillState)
    (h : st.successMessage = none ∨ st.error = none) :
    (StarknetBackfillFetcher st).successAlert = none
      ∨ (StarknetBackfillFetcher st).errorAlert = none := by
  rcases h with h | h
  · left; simp [StarknetBackfillFetcher, h]
  · right; simp [StarknetBackfillFetcher, h, truthyStr]

/-! ## The ABI panel -/

/-- C1, as the code has it: for every 2xx response whose body parses to the JSON document
`D`, and every prior state, `handleFetchAbi` completes with the abi cell equal to `D` and
the error cell null, and no error banner is rendered; the "ABI Data" block showing
`JSON.stringify(D, null, 2)` is rendered when `D` is truthy and is absent when `D` is falsy
(`null`, `false`, zero or the empty string). -/
theorem abi_success_presents_document (st : AbiState) (r : Response) (D : Json)
    (hok : r.ok = true) (hjson : r.json = .ok D) :
    ∃ st', handleFetchAbi.settle (.resolved r) st = .ok st'
      ∧ st'.abi = D ∧ st'.error = none
      ∧ (StarknetAbiFetcher st').errorBanner = none
      ∧ (StarknetAbiFetcher st').abiData = (if D.truthy then some ⟨D, 2⟩ else none) := by
  refine ⟨_, abi_settle_parsed r st D hok hjson, rfl, rfl, ?_, rfl⟩
  simp [StarknetAbiFetcher, truthyStr]

/-- An instance for C1: status 200 with the body `{"abi": []}`, received while an earlier
error is on display. -/
theorem abi_success_presents_document_witness :
    ∃ st', handleFetchAbi.settle
        (.resolved ⟨200, .ok (Json.obj [("abi", Json.arr [])]), .ok "", .ok ⟨[], ""⟩⟩)
        { classHash := "0x1", jsonRpcUrl := "http://node", abi := Json.null,
          error := some "HTTP error 500" } = .ok st'
      ∧ st'.abi = Json.obj [("abi", Json.arr [])] ∧ st'.error = none
      ∧ (StarknetAbiFetcher st').errorBanner = none
      ∧ (StarknetAbiFetcher st').abiData
          = (if (Json.obj [("abi", Json.arr [])]).truthy
              then some ⟨Json.obj [("abi", Json.arr [])], 2⟩ else none) :=
  abi_success_presents_document _ ⟨200, .ok (Json.obj [("abi", Json.arr [])]), .ok "", .ok ⟨[], ""⟩⟩
    _ (by decide) rfl

/-- C1 fails as stated: a 200 response whose body is the JSON document `null` leaves the abi
cell equal to that document and the error cell null, but the "ABI Data" block is not
rendered. -/
theorem abi_null_document_not_rendered :
    Response.ok ⟨200, .ok Json.null, .ok "null", .ok ⟨[], "application/json"⟩⟩ = true
      ∧ (handleFetchAbi.settle
            (.resolved ⟨200, .ok Json.null, .ok "null", .ok ⟨[], "application/json"⟩⟩)
            AbiState.initial).map (fun st' => (StarknetAbiFetcher st').abiData)
          = .ok none := by
  refine ⟨by decide, ?_⟩
  rw [abi_settle_parsed _ _ Json.null (by decide) rfl]
  rfl

/-- C3, evaluated on the code: on a 404 response with the non-empty body `class not found`
`handleFetchAbi` completes with the abi cell null, as the claim says, but with the error
text `HTTP error 404` where the claim says the body; the body is never read. -/
theorem abi_failure_ignores_body :
    Response.ok ⟨404, .error "Unexpected token", .ok "class not found", .ok ⟨[], "text/plain"⟩⟩
        = false
      ∧ (handleFetchAbi.settle
            (.resolved
              ⟨404, .error "Unexpected token", .ok "class not found", .ok ⟨[], "text/plain"⟩⟩)
            AbiState.initial)
          = .ok { AbiState.initial with error := some "HTTP error 404", abi := Json.null }
      ∧ "HTTP error 404" ≠ "class not found" := by
  refine ⟨by decide, ?_, by decide⟩
  rw [abi_settle_failed _ _ (by decide)]
  rfl

/-- C6: for every pair of strings in the classHash and jsonRpcUrl cells, both empty
included, `handleFetchAbi` issues exactly one request, a POST to the `/api/abi` endpoint
whose body is the JSON text of the object with the two fields `classHash` and `jsonRpcUrl`
set to those strings; and the handler raises no error of its own: when the network answers
200 with a document `D`, it completes with the error cell null. -/
theorem abi_request_unconditional (net : Request → FetchOutcome) (st : AbiState) :
    (handleFetchAbi net st).1
        = [{ url := "http://localhost:8080/api/abi"
             method := "POST"
             headers := [("Content-Type", "application/json")]
             body := JSON_stringify (Json.obj [("classHash", Json.str st.classHash),
                                               ("jsonRpcUrl", Json.str st.jsonRpcUrl)]) }]
      ∧ (handleFetchAbi net st).2 = handleFetchAbi.settle (net (handleFetchAbi.request st)) st
      ∧ ∀ (D : Json) (text : Except String String) (blob : Except String Blob),
          (handleFetchAbi (fun _ => .resolved ⟨200, .ok D, text, blob⟩) st).2
            = .ok { st with abi := D, error := none } := by
  refine ⟨rfl, rfl, ?_⟩
  intro D text blob
  exact abi_settle_parsed ⟨200, .ok D, text, blob⟩ st D rfl rfl

/-! ## The backfill panel -/

/-- C2: for every non-2xx response with status `s` whose text body is `b`, and every prior
state, `handleBackfill` completes with the error cell equal to `b` when `b` is not empty and
to `HTTP error ` followed by `s` when it is, with successMessage null, and the success alert
(message and download link) is not rendered. -/
theorem backfill_failure_reports_body (w : Window) (st : BackfillState) (r : Response)
    (b : String) (hok : r.ok = false) (htext : r.text = .ok b) :
    ∃ st', handleBackfill.settle w (.resolved r) st = .ok st'
      ∧ st'.error = some (if b ≠ "" then b else "HTTP error " ++ toString r.status)
      ∧ st'.successMessage = none
      ∧ (StarknetBackfillFetcher st').successAlert = none :=
  ⟨_, backfill_settle_failed w r st b hok htext, rfl, rfl, rfl⟩

/-- An instance for C2: status 500 with an empty body, received while an earlier success is
on display. -/
theorem backfill_failure_reports_body_witness :
    ∃ st', handleBackfill.settle (Window.fresh "http://localhost:3000")
        (.resolved ⟨500, .error "Unexpected end of JSON input", .ok "", .ok ⟨[], ""⟩⟩)
        { BackfillState.initial with
          successMessage := some "Backfill successful! Click below to download results."
          downloadUrl := "blob:http://localhost:3000/u0" } = .ok st'
      ∧ st'.error = some (if "" ≠ "" then "" else "HTTP error " ++ toString 500)
      ∧ st'.successMessage = none
      ∧ (StarknetBackfillFetcher st').successAlert = none :=
  backfill_failure_reports_body _ _
    ⟨500, .error "Unexpected end of JSON input", .ok "", .ok ⟨[], ""⟩⟩ "" (by decide) rfl

/-- C5, as the code has it: for every form state and every 2xx response whose body is read
as the blob `blob` (`response.blob()` resolves), `handleBackfill` completes, stores the
object URL it creates from `blob` in downloadUrl (in the blob URL store that URL stands for
`blob`), and the panel renders the success alert with a download link whose file name is
`backfill_results.zip` and whose target is that URL; replacing the outputFile field by any
other value changes nothing in that alert. -/
theorem backfill_success_download (w : Window) (st : BackfillState) (r : Response)
    (blob : Blob) (hok : r.ok = true) (hblob : r.blob = .ok blob) :
    (∃ st' w', handleBackfill.resume w (.resolved r) st = .ok (st', w')
      ∧ createObjectURL w blob = (st'.downloadUrl, w')
      ∧ w'.resolve st'.downloadUrl = some blob
      ∧ (StarknetBackfillFetcher st').successAlert
          = some { description := "Backfill successful! Click below to download results."
                   link := some { href := st'.downloadUrl
                                  download := "backfill_results.zip" } }
      ∧ (StarknetBackfillFetcher st').errorAlert = none)
      ∧ ∀ outputFile : String,
          (handleBackfill.settle w (.resolved r) { st with outputFile := outputFile }).map
              (fun st' => (StarknetBackfillFetcher st').successAlert)
            = (handleBackfill.settle w (.resolved r) st).map
              (fun st' => (StarknetBackfillFetcher st').successAlert) := by
  have hurl := createObjectURL_ne_empty w blob
  refine ⟨⟨_, _, backfill_resume_blob w r st blob hok hblob, rfl,
    createObjectURL_resolve w blob, ?_, ?_⟩, ?_⟩
  · simp [StarknetBackfillFetcher, hurl]
  · simp [StarknetBackfillFetcher, truthyStr]
  · intro outputFile
    rw [backfill_settle_blob w r _ blob hok hblob, backfill_settle_blob w r st blob hok hblob]
    rfl

/-- An instance for C5: status 200 with a three-byte body, with `custom.csv` in the
outputFile field, in a browsing context that has handed out no blob URL yet. -/
theorem backfill_success_download_witness :
    Response.ok ⟨200, .error "Unexpected token", .ok "PK",
        .ok ⟨[80, 75, 3], "application/zip"⟩⟩ = true
      ∧ (∃ st' w', handleBackfill.resume (Window.fresh "http://localhost:3000")
          (.resolved ⟨200, .error "Unexpected token", .ok "PK",
            .ok ⟨[80, 75, 3], "application/zip"⟩⟩)
          { BackfillState.initial with outputFile := "custom.csv" } = .ok (st', w')
        ∧ createObjectURL (Window.fresh "http://localhost:3000")
            ⟨[80, 75, 3], "application/zip"⟩ = (st'.downloadUrl, w')
        ∧ w'.resolve st'.downloadUrl = some ⟨[80, 75, 3], "application/zip"⟩
        ∧ (StarknetBackfillFetcher st').successAlert
            = some { description := "Backfill successful! Click below to download results."
                     link := some { href := st'.downloadUrl
                                    download := "backfill_results.zip" } }
        ∧ (StarknetBackfillFetcher st').errorAlert = none) :=
  ⟨by decide,
    (backfill_success_download (Window.fresh "http://localhost:3000")
      { BackfillState.initial with outputFile := "custom.csv" }
      ⟨200, .error "Unexpected token", .ok "PK", .ok ⟨[80, 75, 3], "application/zip"⟩⟩
      ⟨[80, 75, 3], "application/zip"⟩ (by decide) rfl).1⟩

/-- C5 fails as stated: a 200 response whose `blob()` rejects with the message
`Failed to fetch` is a 2xx response, yet after `handleBackfill` completes the panel renders
no success alert, hence no download link, and shows the error alert instead. -/
theorem backfill_unreadable_body_no_download :
    Response.ok ⟨200, .error "Failed to fetch", .error "Failed to fetch",
        .error "Failed to fetch"⟩ = true
      ∧ (handleBackfill.settle (Window.fresh "http://localhost:3000")
            (.resolved ⟨200, .error "Failed to fetch", .error "Failed to fetch",
              .error "Failed to fetch"⟩)
            BackfillState.initial).map
            (fun st' => ((StarknetBackfillFetcher st').successAlert,
                         (StarknetBackfillFetcher st').errorAlert))
          = .ok (none, some "Failed to fetch") := by
  refine ⟨by decide, ?_⟩
  rw [backfill_settle_noblob _ _ _ "Failed to fetch" (by decide) rfl]
  rfl

/-! ## Both panels -/

/-- C7: in both panels, when `fetch` rejects with an error whose message is `msg`, the
handler completes normally (its promise is fulfilled, nothing is thrown on) with the error
cell equal to `msg` and the prior result cleared: abi null in the ABI panel, successMessage
null in the backfill panel. -/
theorem transport_failure_is_caught (msg : String) (st : AbiState) (w : Window)
    (bst : BackfillState) :
    handleFetchAbi.settle (.rejected msg) st
        = .ok { st with error := some msg, abi := Json.null }
      ∧ handleBackfill.settle w (.rejected msg) bst
        = .ok { bst with error := some msg, successMessage := none } :=
  ⟨abi_settle_rejected msg st, backfill_settle_rejected w msg bst⟩

/-- C8: in both panels success and error are mutually exclusive in every reachable state.
Starting from the initial state, every sequence of field edits and settled submissions
(2xx, non-2xx or transport failure, in any order) runs to completion, and in the state it
ends in the abi cell is null or the error cell is null (ABI panel), successMessage is null
or the error cell is null (backfill panel); so the rendered view never has a success block
and an error banner together. -/
theorem success_and_error_exclusive (evs : List AbiEvent) (bevs : List BackfillEvent) :
    (∃ st, AbiState.initial.run evs = .ok st
      ∧ (st.abi = Json.null ∨ st.error = none)
      ∧ ((StarknetAbiFetcher st).abiData = none ∨ (StarknetAbiFetcher st).errorBanner = none))
    ∧ (∃ bst, BackfillState.initial.run bevs = .ok bst
      ∧ (bst.successMessage = none ∨ bst.error = none)
      ∧ ((StarknetBackfillFetcher bst).successAlert = none
          ∨ (StarknetBackfillFetcher bst).errorAlert = none)) := by
  obtain ⟨st, hrun, hst⟩ := abi_run_exclusive evs AbiState.initial (Or.inl rfl)
  obtain ⟨bst, hbrun, hbst⟩ := backfill_run_exclusive bevs BackfillState.initial (Or.inl rfl)
  exact ⟨⟨st, hrun, hst, abi_view_exclusive st hst⟩,
    ⟨bst, hbrun, hbst, backfill_view_exclusive bst hbst⟩⟩

/-- C9: in both panels the outcome shown after a response settles (ABI data and error
banner; success alert with download link and error alert) is the same for every prior
state, so when two responses settle one after the other, in whichever order, the outcome
shown at the end is the one the last response produces when it settles on its own from any
state. -/
theorem last_settled_response_wins (o1 o2 : FetchOutcome) (st st0 : AbiState)
    (w1 w2 : Window) (p1 p2 : FetchOutcome) (bst bst0 : BackfillState) :
    (st.run [.settled o1, .settled o2]).map (fun s => (StarknetAbiFetcher s).outcome)
        = (handleFetchAbi.settle o2 st0).map (fun s => (StarknetAbiFetcher s).outcome)
      ∧ (bst.run [.settled w1 p1, .settled w2 p2]).map
            (fun s => (StarknetBackfillFetcher s).outcome)
          = (handleBackfill.settle w2 p2 bst0).map
            (fun s => (StarknetBackfillFetcher s).outcome) := by
  constructor
  · obtain ⟨s1, h1, _⟩ := abi_settle_total o1 st
    obtain ⟨s2, h2, _⟩ := abi_settle_total o2 s1
    have hrun : st.run [.settled o1, .settled o2] = handleFetchAbi.settle o2 s1 := by
      simp only [AbiState.run, AbiState.step, h1, h2]
    rw [hrun]
    exact abi_settle_outcome o2 s1 st0
  · obtain ⟨s1, h1, _⟩ := backfill_settle_total w1 p1 bst
    obtain ⟨s2, h2, _⟩ := backfill_settle_total w2 p2 s1
    have hrun : bst.run [.settled w1 p1, .settled w2 p2] = handleBackfill.settle w2 p2 s1 := by
      simp only [BackfillState.run, BackfillState.step, h1, h2]
    rw [hrun]
    exact backfill_settle_outcome w2 p2 s1 bst0

/-! ## The numbers of the backfill request -/

/-- C4, as the code has it: when the fromBlock and toBlock cells hold decimal strings of the
natural numbers `m` and `n`, the object that `handleBackfill` serialises as the request body
carries rpcUrl, outputFile and the checkbox value (under the key `transactionHashFlag`)
unchanged and carries fromBlock and toBlock as numbers, not strings, namely the doubles
nearest to `m` and `n`; whenever `m` and `n` do not exceed `2 ^ 53` these are the numbers
`m` and `n` themselves. -/
theorem backfill_request_numbers (other : String → JsNumber) (st : BackfillState) (m n : Nat)
    (hfrom : IsDecimalOf st.fromBlock m) (hto : IsDecimalOf st.toBlock n) :
    (handleBackfill.request other st).body
        = JSON_stringify (Json.obj [("fromBlock", Json.num (roundToDouble m)),
                                    ("toBlock", Json.num (roundToDouble n)),
                                    ("rpcUrl", Json.str st.rpcUrl),
                                    ("outputFile", Json.str st.outputFile),
                                    ("transactionHashFlag", Json.bool st.transactionHashFlag)])
      ∧ (m ≤ 2 ^ 53 → n ≤ 2 ^ 53 →
          (handleBackfill.request other st).body
            = JSON_stringify (Json.obj [("fromBlock", Json.num (JsNumber.real m)),
                                        ("toBlock", Json.num (JsNumber.real n)),
                                        ("rpcUrl", Json.str st.rpcUrl),
                                        ("outputFile", Json.str st.outputFile),
                                        ("transactionHashFlag",
                                          Json.bool st.transactionHashFlag)])) := by
  obtain ⟨hf1, hf2, hf3⟩ := hfrom
  obtain ⟨ht1, ht2, ht3⟩ := hto
  have hbody : (handleBackfill.request other st).body
      = JSON_stringify (Json.obj [("fromBlock", Json.num (roundToDouble m)),
                                  ("toBlock", Json.num (roundToDouble n)),
                                  ("rpcUrl", Json.str st.rpcUrl),
                                  ("outputFile", Json.str st.outputFile),
                                  ("transactionHashFlag", Json.bool st.transactionHashFlag)]) := by
    simp only [handleBackfill.request, Number_decimal other _ hf1 hf2,
      Number_decimal other _ ht1 ht2, hf3, ht3]
  refine ⟨hbody, ?_⟩
  intro hm hn
  rw [hbody, roundToDouble_exact m hm, roundToDouble_exact n hn]

/-- The specification's example for C4: fromBlock `100`, toBlock `200`, rpcUrl
`http://node.example/rpc`, outputFile `custom.csv`, checkbox ticked; the body carries the
numbers 100 and 200. -/
theorem backfill_request_numbers_witness :
    IsDecimalOf "100" 100 ∧ IsDecimalOf "200" 200 ∧ 100 ≤ 2 ^ 53 ∧ 200 ≤ 2 ^ 53
      ∧ (handleBackfill.request (fun _ => JsNumber.nan)
          { BackfillState.initial with
            fromBlock := "100", toBlock := "200", rpcUrl := "http://node.example/rpc"
            outputFile := "custom.csv", transactionHashFlag := true }).body
        = JSON_stringify (Json.obj [("fromBlock", Json.num (JsNumber.real (100 : Nat))),
                                    ("toBlock", Json.num (JsNumber.real (200 : Nat))),
                                    ("rpcUrl", Json.str "http://node.example/rpc"),
                                    ("outputFile", Json.str "custom.csv"),
                                    ("transactionHashFlag", Json.bool true)]) :=
  ⟨by decide, by decide, by norm_num, by norm_num,
    (backfill_request_numbers (fun _ => JsNumber.nan)
      { BackfillState.initial with
        fromBlock := "100", toBlock := "200", rpcUrl := "http://node.example/rpc"
        outputFile := "custom.csv", transactionHashFlag := true }
      100 200 (by decide) (by decide)).2 (by norm_num) (by norm_num)⟩

/-- C4 fails as stated: `9007199254740993` is the decimal string of `2 ^ 53 + 1`, and with
it in the fromBlock cell the request body carries the number `9007199254740992`. -/
theorem backfill_request_rounds_large_block :
    "9007199254740993" = toString (9007199254740993 : Nat)
      ∧ IsDecimalOf "9007199254740993" 9007199254740993
      ∧ (handleBackfill.request (fun _ => JsNumber.nan)
            { BackfillState.initial with fromBlock := "9007199254740993", toBlock := "200" }).body
          = JSON_stringify (Json.obj [("fromBlock", Json.num (JsNumber.real 9007199254740992)),
                                      ("toBlock", Json.num (JsNumber.real 200)),
                                      ("rpcUrl", Json.str ""),
                                      ("outputFile", Json.str "block_details.csv"),
                                      ("transactionHashFlag", Json.bool false)])
      ∧ JsNumber.real 9007199254740992 ≠ JsNumber.real 9007199254740993 := by
  refine ⟨by decide, by decide, ?_, by decide⟩
  have h1 : Number (fun _ => JsNumber.nan) "9007199254740993"
      = JsNumber.real 9007199254740992 := by
    rw [Number_decimal _ _ (by decide) (by decide)]
    have hv : decimalValue "9007199254740993".data = 9007199254740993 := by decide
    rw [hv]
    norm_num [roundToDouble, Nat.log2]
  have h2 : Number (fun _ => JsNumber.nan) "200" = JsNumber.real 200 := by
    rw [Number_decimal _ _ (by decide) (by decide)]
    have hv : decimalValue "200".data = 200 := by decide
    rw [hv, roundToDouble_exact 200 (by norm_num)]
    norm_num
  simp only [handleBackfill.request, BackfillState.initial, h1, h2]

/-- C10: submitting the backfill form in its initial state is not blocked: `handleBackfill`
issues exactly one request, a POST to the `/api/backfill` endpoint, whose body carries
fromBlock and toBlock as the JSON number 0 (the empty string coerces to 0), rpcUrl as the
empty string, outputFile as `block_details.csv` and transactionHashFlag as false. -/
theorem backfill_initial_request (other : String → JsNumber) (w : Window)
    (net : Request → FetchOutcome) :
    (handleBackfill other w net BackfillState.initial).1
      = [{ url := "http://localhost:8080/api/backfill"
           method := "POST"
           headers := [("Content-Type", "application/json")]
           body := JSON_stringify (Json.obj [("fromBlock", Json.num (JsNumber.real 0)),
                                             ("toBlock", Json.num (JsNumber.real 0)),
                                             ("rpcUrl", Json.str ""),
                                             ("outputFile", Json.str "block_details.csv"),
                                             ("transactionHashFlag", Json.bool false)]) }] := by
  rfl

end Athena
